import Mathlib

/-!
Shallow embedding of the Picomotor 8742 driver (src/picomotor.py).

The controller class is embedded as a family of functions over an explicit
channel state: Python exceptions become an error type, the USB endpoint pair
becomes a write log plus a script of queued replies, and each protocol
operation is a state-passing function in the `EStateM` monad (errors keep the
state, so "no bytes written before the error" is directly observable).
-/

/-- Python exceptions raised by the driver: `ValueError msg` for validation
failures, `KeyError k` for a failed dict lookup (motor-type table), and
`IndexError` for `s[-1]` on an empty string.  `transport` models a read on a
channel with no scripted reply left (the fake channel runs dry). -/
inductive PyError where
  | valueError (msg : String)
  | keyError (key : String)
  | indexError
  | transport
  deriving DecidableEq, Repr

/-- The byte-channel double: `written` is the log of command strings written to
the OUT endpoint (in order), `replies` the script of raw byte replies the IN
endpoint will yield, one per read. -/
structure Channel where
  written : List String
  replies : List (List Nat)
  deriving DecidableEq, Repr

/-- The driver monad: state-passing over the channel, with Python-style
exceptions.  An `EStateM` error preserves the state, so the write log at the
point of failure is visible in the result. -/
abbrev PicoM (α : Type) : Type := EStateM PyError Channel α

/-- Modelled from the spec: the command table lives in `commands.py`
(`from commands import COMMANDS`), a file not present under src/.  Keys are the
ones the driver looks up; mnemonic strings follow the firmware constants the
spec cites ("VA" for set_velocity in the glossary, "MD?" in the wire example
for query_motion_done) and the vendor command set for the rest. -/
def COMMANDS : List (String × String) :=
  [ ("id_string", "*IDN?")
  , ("query_firmware", "VE?")
  , ("set_velocity", "VA")
  , ("query_velocity", "VA?")
  , ("set_accel", "AC")
  , ("query_accel", "AC?")
  , ("query_pos", "TP?")
  , ("define_home", "DH")
  , ("query_home", "DH?")
  , ("query_motion_done", "MD?")
  , ("move_indefinitely", "MV")
  , ("move_to_target_pos", "PA")
  , ("query_target_pos", "PA?")
  , ("move_relative", "PR")
  , ("query_target_rel", "PR?")
  , ("motor_check", "MC")
  , ("set_motor_type", "QM")
  , ("query_motor_type", "QM?")
  , ("set_address", "SA")
  , ("query_address", "SA?")
  , ("scan_RS485", "SC")
  , ("query_scan_status", "SD?")
  , ("query_RS485_addr", "SC?")
  , ("save", "SM")
  , ("stop", "ST")
  , ("query_error_msg", "TB?")
  , ("query_error_nr", "TE?")
  , ("purge_memory", "XX")
  ]

/-- `COMMANDS[key]` — the Python dict lookup the operations perform.  Every key
used by the driver is present, so the default is never reached. -/
def cmdOf (key : String) : String :=
  ((COMMANDS.lookup key).getD "")

/-- `MOTOR_TYPE` dict from the top of picomotor.py, as a partial lookup:
`none` is where Python would raise `KeyError`. -/
def MOTOR_TYPE (code : String) : Option String :=
  if code = "0" then some "No motor connected"
  else if code = "1" then some "Motor Unknown"
  else if code = "2" then some "\x27Tiny\x27 Motor"
  else if code = "3" then some "\x27Standard\x27 Motor"
  else none

/-- A Python value appearing as the `val` argument of `format_command`:
an int, a string (the `+`/`-` direction), or `None`. -/
inductive PyVal where
  | vInt (n : Int)
  | vStr (s : String)
  | vNone
  deriving DecidableEq, Repr

/-- The f-string rendering of a (non-None) Python value. -/
def pyStr : PyVal → String
  | .vInt n => toString n
  | .vStr s => s
  | .vNone => "None"

/-- `Controller.verify_command`. -/
def verify_command (cmd : String) : Except PyError Unit :=
  if COMMANDS.any (fun p => p.2 = cmd) then .ok ()
  else .error (.valueError "Invalid command")

/-- `Controller.verify_address_value`. -/
def verify_address_value (addr : Int) : Except PyError Unit :=
  if addr = 1 ∨ addr = 2 then .ok ()
  else .error (.valueError "Invalid address value")

/-- `Controller.verify_axis_value` (the `type(axis) == int` half of the guard
holds by construction, axes being embedded as integers). -/
def verify_axis_value (axis : Int) : Except PyError Unit :=
  if 1 ≤ axis ∧ axis ≤ 4 then .ok ()
  else .error (.valueError "Invalid axis value")

/-- `Controller.format_command(ascii_cmd, addr=1, axis=None, val=None)`.
`axis` is `Option Int`; the Python `if axis:` truthiness test is `some a` with
`a ≠ 0`.  Pure: no channel involved. -/
def format_command (ascii_cmd : String) (addr : Int) (axis : Option Int)
    (val : PyVal) : Except PyError String := do
  verify_command ascii_cmd
  verify_address_value addr
  let cmd ← match axis with
    | some a =>
        if a ≠ 0 then do
          verify_axis_value a
          pure s!"{addr}>{a}{ascii_cmd}"
        else
          pure s!"{addr}>{ascii_cmd}"
    | none => pure s!"{addr}>{ascii_cmd}"
  match val with
  | .vNone => pure (cmd ++ "\r")
  | v => pure (cmd ++ pyStr v ++ "\r")

/-- Python `str.rstrip()` whitespace set (space, tab, LF, CR, VT, FF). -/
def isPyWhitespace (c : Char) : Bool :=
  c = ' ' ∨ c = '\t' ∨ c = '\n' ∨ c = '\r' ∨ c = '\x0b' ∨ c = '\x0c'

/-- Python `str.rstrip()` on a character list. -/
def rstripChars (cs : List Char) : List Char :=
  (cs.reverse.dropWhile isPyWhitespace).reverse

/-- `Controller.parse_reply`: decode each byte with `chr`, right-strip, drop
the first two characters.  The `[2:]` slice is total: on fewer than two
remaining characters it yields the empty string, with no error path. -/
def parse_reply (reply : List Nat) : String :=
  String.mk ((rstripChars (reply.map Char.ofNat)).drop 2)

/-- Lift the pure validators/formatter into the channel monad (a Python raise
inside a method body). -/
def liftE {α : Type} (x : Except PyError α) : PicoM α :=
  match x with
  | .ok a => pure a
  | .error e => throw e

/-- `Controller.send_command(usb_command, get_reply)`: write the command to the
OUT endpoint log; if a reply is requested, pop the next scripted reply from
the IN endpoint. -/
def send_command (usb_command : String) (get_reply : Bool) :
    PicoM (Option (List Nat)) := do
  modify (fun ch => { ch with written := ch.written ++ [usb_command] })
  if get_reply then
    let ch ← get
    match ch.replies with
    | [] => throw .transport
    | r :: rs => do
        set { ch with replies := rs }
        pure (some r)
  else
    pure none

/-- Python `s[-1]`: the last character, `IndexError` on the empty string. -/
def pyLast (s : String) : Except PyError Char :=
  match s.data.getLast? with
  | some c => .ok c
  | none => .error .indexError

/-- Send a command, read the reply, clean it — the
`parse_reply(send_command(cmd, True))` pattern of every query operation. -/
def query (cmd : String) : PicoM String := do
  let r ← send_command cmd true
  match r with
  | some reply => pure (parse_reply reply)
  | none => throw .transport

/-- `Controller.set_velocity(addr, axis, val)`. -/
def set_velocity (addr axis val : Int) : PicoM Unit := do
  liftE (verify_address_value addr)
  liftE (verify_axis_value axis)
  if 1 ≤ val ∧ val ≤ 2000 then pure ()
  else throw (.valueError "Velocity must be between 1 and 2000")
  let cmd ← liftE (format_command (cmdOf "set_velocity") addr (some axis) (.vInt val))
  let _ ← send_command cmd false
  pure ()

/-- `Controller.set_acceleration(addr, axis, val)`. -/
def set_acceleration (addr axis val : Int) : PicoM Unit := do
  liftE (verify_address_value addr)
  liftE (verify_axis_value axis)
  if 0 < val ∧ val ≤ 200000 then pure ()
  else throw (.valueError "Invalid acceleration value")
  let cmd ← liftE (format_command (cmdOf "set_accel") addr (some axis) (.vInt val))
  let _ ← send_command cmd false
  pure ()

/-- `Controller.get_position(addr, axis)` up to the reply string (the final
`int(reply)` conversion is not needed by any claim and is left to the caller,
keeping the embedded operation total on its channel effects). -/
def get_position (addr axis : Int) : PicoM String := do
  liftE (verify_address_value addr)
  liftE (verify_axis_value axis)
  let cmd ← liftE (format_command (cmdOf "query_pos") addr (some axis) .vNone)
  query cmd

/-- `Controller.set_home(addr, axis, val=None)`: `val` is `Option Int`, and
the body rejects anything that is not an int — `none` included — with the
(mislabelled) "Invalid acceleration value" message. -/
def set_home (addr axis : Int) (val : Option Int) : PicoM Unit := do
  liftE (verify_address_value addr)
  liftE (verify_axis_value axis)
  match val with
  | none => throw (.valueError "Invalid acceleration value")
  | some v => do
      let cmd ← liftE (format_command (cmdOf "define_home") addr (some axis) (.vInt v))
      let _ ← send_command cmd false
      pure ()

/-- `Controller.finished_moving(addr, axis)`: query motion-done, compare the
last reply character with `'1'`. -/
def finished_moving (addr axis : Int) : PicoM Bool := do
  let cmd ← liftE (format_command (cmdOf "query_motion_done") addr (some axis) .vNone)
  let reply ← query cmd
  let c ← liftE (pyLast reply)
  pure (c = '1')

/-- The `while not self.finished_moving(addr, axis): pass` busy-poll.  Each
iteration consumes one scripted reply (or throws when the script runs dry), so
`replies.length + 1` fuel always suffices; the fuel-exhausted branch is
unreachable and marked with a distinguished error. -/
def poll_finished (addr axis : Int) : Nat → PicoM Unit
  | 0 => throw .transport
  | fuel + 1 => do
      let done ← finished_moving addr axis
      if done then pure () else poll_finished addr axis fuel

/-- `Controller.move_to_target(addr, axis, target)`: validate, send the move
command once, then busy-poll `finished_moving` until it reports done. -/
def move_to_target (addr axis target : Int) : PicoM Unit := do
  liftE (verify_address_value addr)
  liftE (verify_axis_value axis)
  let cmd ← liftE (format_command (cmdOf "move_to_target_pos") addr (some axis) (.vInt target))
  let _ ← send_command cmd false
  let ch ← get
  poll_finished addr axis (ch.replies.length + 1)

/-- `Controller.move_relative(addr, axis, steps)`: same shape as
`move_to_target` with the relative-move mnemonic. -/
def move_relative (addr axis steps : Int) : PicoM Unit := do
  liftE (verify_address_value addr)
  liftE (verify_axis_value axis)
  let cmd ← liftE (format_command (cmdOf "move_relative") addr (some axis) (.vInt steps))
  let _ ← send_command cmd false
  let ch ← get
  poll_finished addr axis (ch.replies.length + 1)

/-- `Controller.get_motor_type(addr, axis)`: query, then look the last reply
character up in `MOTOR_TYPE`; a missing key is Python `KeyError`. -/
def get_motor_type (addr axis : Int) : PicoM String := do
  let cmd ← liftE (format_command (cmdOf "query_motor_type") addr (some axis) .vNone)
  let reply ← query cmd
  let c ← liftE (pyLast reply)
  match MOTOR_TYPE (String.mk [c]) with
  | some label => pure label
  | none => throw (.keyError (String.mk [c]))

/-- `Controller.set_address(addr, val=1)`.  The source calls
`format_command(COMMANDS[...], addr, val)` with `val` in positional order, so
it lands in the formatter AXIS parameter, not its value parameter. -/
def set_address (addr val : Int) : PicoM Unit := do
  liftE (verify_address_value addr)
  if 1 ≤ val ∧ val ≤ 31 then pure ()
  else throw (.valueError "New address must be between 1 and 31")
  let cmd ← liftE (format_command (cmdOf "set_address") addr (some val) .vNone)
  let _ ← send_command cmd false
  pure ()

/-- `Controller.is_scan_done()`. -/
def is_scan_done : PicoM Bool := do
  let cmd ← liftE (format_command (cmdOf "query_scan_status") 1 none .vNone)
  let reply ← query cmd
  let c ← liftE (pyLast reply)
  pure (c = '1')

/-- Binary expansion, most-significant bit first, by structural recursion on
a fuel bound (`n` halves each step, the fuel drops by one, and `n ≤ fuel` is
preserved, so the zero-fuel branch is unreachable from `binRep`). -/
def binRepAux : Nat → Nat → List Nat
  | 0, _ => []
  | _ + 1, 0 => []
  | fuel + 1, n + 1 => binRepAux fuel ((n + 1) / 2) ++ [(n + 1) % 2]

/-- Binary digits of a positive integer, most-significant bit first. -/
def binRep (n : Nat) : List Nat := binRepAux n n

/-- Python `format(n, 'b')` as a digit list: `format(0, 'b') = "0"`. -/
def pyFormatB (n : Nat) : List Nat :=
  if n = 0 then [0] else binRep n

/-- Python `int(s)` for the nonnegative decimal replies the firmware sends;
`none` is where Python would raise `ValueError` (empty or non-digit text). -/
def pyParseNat (s : String) : Option Nat :=
  if s.data ≠ [] ∧ s.data.all Char.isDigit then
    some (s.data.foldl (fun acc c => 10 * acc + (c.toNat - 48)) 0)
  else
    none

/-- `Controller.get_controller_address_map()`: query the bitmask, parse it as
a decimal integer, expand to binary digits, reverse. -/
def get_controller_address_map : PicoM (List Nat) := do
  let cmd ← liftE (format_command (cmdOf "query_RS485_addr") 1 none .vNone)
  let reply ← query cmd
  match pyParseNat reply with
  | none => throw (.valueError "invalid literal for int")
  | some n => pure (pyFormatB n).reverse

/-! ### Helper lemmas -/

theorem verify_command_ok {m : String} (h : m ∈ COMMANDS.map Prod.snd) :
    verify_command m = .ok () := by
  unfold verify_command
  rw [if_pos]
  rw [List.any_eq_true]
  obtain ⟨p, hp, hpe⟩ := List.mem_map.mp h
  exact ⟨p, hp, by simp [hpe]⟩

theorem verify_address_ok {a : Int} (h : a = 1 ∨ a = 2) :
    verify_address_value a = .ok () := by
  unfold verify_address_value
  rw [if_pos h]

theorem verify_address_err {a : Int} (h : ¬(a = 1 ∨ a = 2)) :
    verify_address_value a = .error (.valueError "Invalid address value") := by
  unfold verify_address_value
  rw [if_neg h]

theorem verify_axis_ok {a : Int} (h : 1 ≤ a ∧ a ≤ 4) :
    verify_axis_value a = .ok () := by
  unfold verify_axis_value
  rw [if_pos h]

theorem verify_axis_err {a : Int} (h : ¬(1 ≤ a ∧ a ≤ 4)) :
    verify_axis_value a = .error (.valueError "Invalid axis value") := by
  unfold verify_axis_value
  rw [if_neg h]

/-! ### Claim theorems -/

/-- C1, counterexample.  The claim says `parse_reply` fails with a
MalformedReply error whenever fewer than 2 characters remain after decoding
and right-stripping.  The source has no such check: on the one-byte reply
`[49]` (the text "1", a single character after stripping) it silently returns
the empty string. -/
theorem parse_reply_short_silently_empty_cx :
    (rstripChars (([49] : List Nat).map Char.ofNat)).length < 2 ∧
      parse_reply [49] = "" := by
  exact ⟨by decide, rfl⟩

/-- C1, amended.  `parse_reply` has no error path: whenever the decoded,
right-stripped text has fewer than 2 characters, the `[2:]` slice silently
yields the empty string. -/
theorem parse_reply_short_returns_empty (reply : List Nat)
    (h : (rstripChars (reply.map Char.ofNat)).length < 2) :
    parse_reply reply = "" := by
  unfold parse_reply
  rw [List.drop_eq_nil_of_le (by omega)]

/-- C1, witness for the amended theorem at the concrete reply `[49]`. -/
theorem parse_reply_short_returns_empty_witness :
    parse_reply [49] = "" :=
  parse_reply_short_returns_empty [49] (by decide)

/-- C10.  `set_home` with its declared default `val = None` always raises
`ValueError` (with the copy-pasted "Invalid acceleration value" message)
before anything is written to the channel, for every valid address and axis:
the "home defaults to 0" behaviour in its docstring is unreachable. -/
theorem set_home_default_val_unreachable (addr axis : Int) (ch : Channel)
    (h1 : addr = 1 ∨ addr = 2) (h2 : 1 ≤ axis ∧ axis ≤ 4) :
    set_home addr axis none ch =
      .error (.valueError "Invalid acceleration value") ch := by
  unfold set_home
  rw [verify_address_ok h1, verify_axis_ok h2]
  rfl

/-- C10, witness at `addr = 1`, `axis = 1`, the empty channel. -/
theorem set_home_default_val_unreachable_witness :
    set_home 1 1 none ⟨[], []⟩ =
      .error (.valueError "Invalid acceleration value") ⟨[], []⟩ :=
  set_home_default_val_unreachable 1 1 ⟨[], []⟩ (Or.inl rfl) (by decide)

/-- C2.  `set_address` passes the new-address value positionally into the
AXIS parameter of `format_command`, so instead of one command of the form
`{addr}>SA{val}\r` the driver (a) raises `ValueError("Invalid axis value")`
for every new address in [5,31], writing nothing — here evaluated at
`set_address(1, 5)` — and (b) for new addresses in [1,4] sends the value as
an axis digit in front of the mnemonic with no value segment at all
(`set_address(1, 2)` writes `"1>2SA\r"`, not `"1>SA2\r"`). -/
theorem set_address_misroutes_value_to_axis :
    set_address 1 5 ⟨[], []⟩ =
        .error (.valueError "Invalid axis value") ⟨[], []⟩ ∧
      set_address 1 2 ⟨[], []⟩ = .ok () ⟨["1>2SA\r"], []⟩ ∧
      "1>2SA\r" ≠ "1>SA2\r" := by
  exact ⟨rfl, rfl, by decide⟩

/-- C9.  `format_command` treats `axis = 0` exactly like an omitted axis:
Python's `if axis:` truthiness test is false at 0, so axis validation is
bypassed, no InvalidAxis error is possible, and the produced command string
has no axis digit — identical to the axis-absent call. -/
theorem format_command_axis_zero_bypass (m : String) (addr : Int) (v : PyVal)
    (hm : m ∈ COMMANDS.map Prod.snd) (haddr : addr = 1 ∨ addr = 2) :
    format_command m addr (some 0) v = format_command m addr none v ∧
      (v ≠ .vNone →
        format_command m addr (some 0) v =
          .ok (s!"{addr}>{m}" ++ pyStr v ++ "\r")) ∧
      format_command m addr (some 0) .vNone = .ok (s!"{addr}>{m}" ++ "\r") := by
  have hvc := verify_command_ok hm
  have hva := verify_address_ok haddr
  refine ⟨rfl, fun hv => ?_, ?_⟩
  · unfold format_command
    rw [hvc, hva]
    cases v with
    | vInt n => rfl
    | vStr s => rfl
    | vNone => exact absurd rfl hv
  · unfold format_command
    rw [hvc, hva]
    rfl

/-- C9, witness: mnemonic "VA", address 2, value 7 — axis 0 yields the same
string as no axis, with no error. -/
theorem format_command_axis_zero_bypass_witness :
    format_command "VA" 2 (some 0) (.vInt 7) =
        format_command "VA" 2 none (.vInt 7) ∧
      format_command "VA" 2 (some 0) (.vInt 7) = .ok ("2>VA" ++ "7" ++ "\r") := by
  have h := format_command_axis_zero_bypass "VA" 2 (.vInt 7) (by decide)
    (Or.inr rfl)
  exact ⟨h.1, h.2.1 (by decide)⟩

/-- C4.  For every mnemonic in the command table, address in {1,2} and axis in
[1,4], `format_command` produces exactly `{addr}>{axis}{mnemonic}{value}\r`;
omitting the axis drops the axis digit, omitting the value drops the value
segment.  (Purity holds by type: `format_command` is a function of its
arguments with no channel parameter.) -/
theorem format_command_wire_format (m : String) (addr axis : Int) (v : PyVal)
    (hm : m ∈ COMMANDS.map Prod.snd) (haddr : addr = 1 ∨ addr = 2)
    (hax : 1 ≤ axis ∧ axis ≤ 4) :
    (v ≠ .vNone →
        format_command m addr (some axis) v =
          .ok (s!"{addr}>{axis}{m}" ++ pyStr v ++ "\r")) ∧
      (v ≠ .vNone →
        format_command m addr none v =
          .ok (s!"{addr}>{m}" ++ pyStr v ++ "\r")) ∧
      format_command m addr (some axis) .vNone =
        .ok (s!"{addr}>{axis}{m}" ++ "\r") ∧
      format_command m addr none .vNone = .ok (s!"{addr}>{m}" ++ "\r") := by
  have hvc := verify_command_ok hm
  have hva := verify_address_ok haddr
  have hvx := verify_axis_ok hax
  have hz : axis ≠ 0 := by omega
  refine ⟨fun hv => ?_, fun hv => ?_, ?_, ?_⟩
  · unfold format_command
    rw [hvc, hva]
    simp only [ne_eq, hz, not_false_eq_true, if_true, ite_true, hvx, Except.bind]
    cases v with
    | vInt n => rfl
    | vStr s => rfl
    | vNone => exact absurd rfl hv
  · unfold format_command
    rw [hvc, hva]
    cases v with
    | vInt n => rfl
    | vStr s => rfl
    | vNone => exact absurd rfl hv
  · unfold format_command
    rw [hvc, hva]
    simp only [ne_eq, hz, not_false_eq_true, if_true, ite_true, hvx, Except.bind]
    rfl
  · unfold format_command
    rw [hvc, hva]
    rfl

/-- C4, witness: mnemonic "VA", address 1, axis 1, value 500 — all four
shapes at concrete inputs. -/
theorem format_command_wire_format_witness :
    format_command "VA" 1 (some 1) (.vInt 500) =
        .ok ("1>1VA" ++ "500" ++ "\r") ∧
      format_command "VA" 1 none (.vInt 500) = .ok ("1>VA" ++ "500" ++ "\r") ∧
      format_command "VA" 1 (some 1) .vNone = .ok ("1>1VA" ++ "\r") ∧
      format_command "VA" 1 none .vNone = .ok ("1>VA" ++ "\r") := by
  have h := format_command_wire_format "VA" 1 1 (.vInt 500) (by decide)
    (Or.inl rfl) (by decide)
  exact ⟨h.1 (by decide), h.2.1 (by decide), h.2.2.1, h.2.2.2⟩

/-- C3.  Every embedded validated operation, called with an address outside
{1,2} (or, for the axis-taking operations, a valid address but an axis outside
[1,4]), fails with the corresponding Invalid* `ValueError` and leaves the
channel untouched — in particular the write log is exactly as before, so no
bytes were sent ahead of the error. -/
theorem validated_ops_fail_fast_no_write (addr axis v : Int) (ch : Channel) :
    (¬(addr = 1 ∨ addr = 2) →
        set_velocity addr axis v ch =
            .error (.valueError "Invalid address value") ch ∧
          set_acceleration addr axis v ch =
            .error (.valueError "Invalid address value") ch ∧
          get_position addr axis ch =
            .error (.valueError "Invalid address value") ch ∧
          set_home addr axis (some v) ch =
            .error (.valueError "Invalid address value") ch ∧
          move_to_target addr axis v ch =
            .error (.valueError "Invalid address value") ch ∧
          move_relative addr axis v ch =
            .error (.valueError "Invalid address value") ch ∧
          set_address addr v ch =
            .error (.valueError "Invalid address value") ch) ∧
      ((addr = 1 ∨ addr = 2) → ¬(1 ≤ axis ∧ axis ≤ 4) →
        set_velocity addr axis v ch =
            .error (.valueError "Invalid axis value") ch ∧
          set_acceleration addr axis v ch =
            .error (.valueError "Invalid axis value") ch ∧
          get_position addr axis ch =
            .error (.valueError "Invalid axis value") ch ∧
          set_home addr axis (some v) ch =
            .error (.valueError "Invalid axis value") ch ∧
          move_to_target addr axis v ch =
            .error (.valueError "Invalid axis value") ch ∧
          move_relative addr axis v ch =
            .error (.valueError "Invalid axis value") ch) := by
  constructor
  · intro h
    have he := verify_address_err h
    refine ⟨?_, ?_, ?_, ?_, ?_, ?_, ?_⟩
    · unfold set_velocity; rw [he]; rfl
    · unfold set_acceleration; rw [he]; rfl
    · unfold get_position; rw [he]; rfl
    · unfold set_home; rw [he]; rfl
    · unfold move_to_target; rw [he]; rfl
    · unfold move_relative; rw [he]; rfl
    · unfold set_address; rw [he]; rfl
  · intro h1 h2
    have ho := verify_address_ok h1
    have he := verify_axis_err h2
    refine ⟨?_, ?_, ?_, ?_, ?_, ?_⟩
    · unfold set_velocity; rw [ho, he]; rfl
    · unfold set_acceleration; rw [ho, he]; rfl
    · unfold get_position; rw [ho, he]; rfl
    · unfold set_home; rw [ho, he]; rfl
    · unfold move_to_target; rw [ho, he]; rfl
    · unfold move_relative; rw [ho, he]; rfl

/-- C3, witness: address 3 (invalid) and axis 5 at address 1 (invalid), with
`set_velocity` on the empty channel. -/
theorem validated_ops_fail_fast_no_write_witness :
    set_velocity 3 1 500 ⟨[], []⟩ =
        .error (.valueError "Invalid address value") ⟨[], []⟩ ∧
      set_velocity 1 5 500 ⟨[], []⟩ =
        .error (.valueError "Invalid axis value") ⟨[], []⟩ := by
  exact ⟨((validated_ops_fail_fast_no_write 3 1 500 ⟨[], []⟩).1 (by decide)).1,
    ((validated_ops_fail_fast_no_write 1 5 500 ⟨[], []⟩).2
      (Or.inl rfl) (by decide)).1⟩

/-- Running a lifted pure computation followed by a continuation: the error
case short-circuits with the state kept. -/
theorem bind_liftE_run {α β : Type} (x : Except PyError α) (k : α → PicoM β)
    (ch : Channel) :
    (liftE x >>= k) ch =
      match x with
      | .ok a => k a ch
      | .error e => .error e ch := by
  cases x <;> rfl

/-- C8.  For every raw reply whose parsed form is non-empty (last character
`c`), `finished_moving` returns exactly `decide (c = '1')` — true iff the last
character is `'1'` — and `is_scan_done` does the same, whatever payload
precedes the final character. -/
theorem done_status_last_char (w : List String) (bytes : List Nat)
    (rest : List (List Nat)) (c : Char)
    (hc : (parse_reply bytes).data.getLast? = some c) :
    finished_moving 1 1 ⟨w, bytes :: rest⟩ =
        .ok (decide (c = '1')) ⟨w ++ ["1>1MD?\r"], rest⟩ ∧
      is_scan_done ⟨w, bytes :: rest⟩ =
        .ok (decide (c = '1')) ⟨w ++ ["1>SD?\r"], rest⟩ := by
  have hpl : pyLast (parse_reply bytes) = .ok c := by
    unfold pyLast
    rw [hc]
  constructor
  · calc finished_moving 1 1 ⟨w, bytes :: rest⟩
        = (liftE (pyLast (parse_reply bytes)) >>=
            fun c => pure (decide (c = '1'))) ⟨w ++ ["1>1MD?\r"], rest⟩ := rfl
      _ = .ok (decide (c = '1')) ⟨w ++ ["1>1MD?\r"], rest⟩ := by
          rw [bind_liftE_run, hpl]
          rfl
  · calc is_scan_done ⟨w, bytes :: rest⟩
        = (liftE (pyLast (parse_reply bytes)) >>=
            fun c => pure (decide (c = '1'))) ⟨w ++ ["1>SD?\r"], rest⟩ := rfl
      _ = .ok (decide (c = '1')) ⟨w ++ ["1>SD?\r"], rest⟩ := by
          rw [bind_liftE_run, hpl]
          rfl

/-- C8, witness: a "done" reply `"1>1\r\n"` yields true, a "not done" reply
`"1>0\r\n"` yields false, for both status queries. -/
theorem done_status_last_char_witness :
    finished_moving 1 1 ⟨[], [[49, 62, 49, 13, 10]]⟩ =
        .ok true ⟨["1>1MD?\r"], []⟩ ∧
      is_scan_done ⟨[], [[49, 62, 48, 13, 10]]⟩ =
        .ok false ⟨["1>SD?\r"], []⟩ := by
  exact ⟨(done_status_last_char [] [49, 62, 49, 13, 10] [] '1' rfl).1,
    (done_status_last_char [] [49, 62, 48, 13, 10] [] '0' rfl).2⟩

/-- A single-character string other than "0".."3" misses every key of
`MOTOR_TYPE`. -/
theorem MOTOR_TYPE_not_in {c : Char} (h0 : c ≠ '0') (h1 : c ≠ '1')
    (h2 : c ≠ '2') (h3 : c ≠ '3') : MOTOR_TYPE (String.mk [c]) = none := by
  unfold MOTOR_TYPE
  rw [if_neg fun hEq => h0 (by simpa using congrArg String.data hEq),
    if_neg fun hEq => h1 (by simpa using congrArg String.data hEq),
    if_neg fun hEq => h2 (by simpa using congrArg String.data hEq),
    if_neg fun hEq => h3 (by simpa using congrArg String.data hEq)]

/-- C7.  `get_motor_type` maps the reply codes 0,1,2,3 to the four fixed
labels, and fails with `KeyError` (the unknown-motor-type-code failure) on any
other final reply character. -/
theorem motor_type_code_lookup (w : List String) (bytes : List Nat)
    (rest : List (List Nat)) (c : Char)
    (hc : (parse_reply bytes).data.getLast? = some c) :
    (c = '0' → get_motor_type 1 1 ⟨w, bytes :: rest⟩ =
        .ok "No motor connected" ⟨w ++ ["1>1QM?\r"], rest⟩) ∧
      (c = '1' → get_motor_type 1 1 ⟨w, bytes :: rest⟩ =
        .ok "Motor Unknown" ⟨w ++ ["1>1QM?\r"], rest⟩) ∧
      (c = '2' → get_motor_type 1 1 ⟨w, bytes :: rest⟩ =
        .ok "\x27Tiny\x27 Motor" ⟨w ++ ["1>1QM?\r"], rest⟩) ∧
      (c = '3' → get_motor_type 1 1 ⟨w, bytes :: rest⟩ =
        .ok "\x27Standard\x27 Motor" ⟨w ++ ["1>1QM?\r"], rest⟩) ∧
      (c ≠ '0' → c ≠ '1' → c ≠ '2' → c ≠ '3' →
        get_motor_type 1 1 ⟨w, bytes :: rest⟩ =
          .error (.keyError (String.mk [c])) ⟨w ++ ["1>1QM?\r"], rest⟩) := by
  have hpl : pyLast (parse_reply bytes) = .ok c := by
    unfold pyLast
    rw [hc]
  have hrun : get_motor_type 1 1 ⟨w, bytes :: rest⟩ =
      (match MOTOR_TYPE (String.mk [c]) with
        | some label => (pure label : PicoM String)
        | none => throw (PyError.keyError (String.mk [c])))
        ⟨w ++ ["1>1QM?\r"], rest⟩ := by
    calc get_motor_type 1 1 ⟨w, bytes :: rest⟩
        = (liftE (pyLast (parse_reply bytes)) >>= fun c =>
            match MOTOR_TYPE (String.mk [c]) with
            | some label => pure label
            | none => throw (PyError.keyError (String.mk [c])))
            ⟨w ++ ["1>1QM?\r"], rest⟩ := rfl
      _ = _ := by rw [bind_liftE_run, hpl]
  refine ⟨fun h => ?_, fun h => ?_, fun h => ?_, fun h => ?_,
    fun h0 h1 h2 h3 => ?_⟩
  · subst h; exact hrun
  · subst h; exact hrun
  · subst h; exact hrun
  · subst h; exact hrun
  · rw [hrun, MOTOR_TYPE_not_in h0 h1 h2 h3]
    rfl

/-- C7, witness: reply code 2 yields the Tiny-motor label, reply code 7 fails
with `KeyError "7"`. -/
theorem motor_type_code_lookup_witness :
    get_motor_type 1 1 ⟨[], [[49, 62, 50]]⟩ =
        .ok "\x27Tiny\x27 Motor" ⟨["1>1QM?\r"], []⟩ ∧
      get_motor_type 1 1 ⟨[], [[49, 62, 55]]⟩ =
        .error (.keyError "7") ⟨["1>1QM?\r"], []⟩ := by
  exact ⟨(motor_type_code_lookup [] [49, 62, 50] [] '2' rfl).2.2.1 rfl,
    (motor_type_code_lookup [] [49, 62, 55] [] '7' rfl).2.2.2.2
      (by decide) (by decide) (by decide) (by decide)⟩

/-- With enough fuel, `binRepAux` computes the base-2 digit string,
most-significant bit first. -/
theorem binRepAux_digits (fuel : Nat) : ∀ n : Nat, n ≤ fuel →
    binRepAux fuel n = (Nat.digits 2 n).reverse := by
  induction fuel with
  | zero =>
    intro n h
    have hn : n = 0 := by omega
    subst hn
    simp [binRepAux]
  | succ f ih =>
    intro n h
    cases n with
    | zero => simp [binRepAux]
    | succ m =>
      show binRepAux f ((m + 1) / 2) ++ [(m + 1) % 2] =
        (Nat.digits 2 (m + 1)).reverse
      rw [ih ((m + 1) / 2) (by omega),
        Nat.digits_def' one_lt_two (Nat.succ_pos m)]
      simp

/-- Digit `i` of the little-endian base-2 expansion is `n / 2^i % 2`
(including past the end, where both sides are 0). -/
theorem digits_two_getD (i : Nat) : ∀ n : Nat,
    (Nat.digits 2 n).getD i 0 = n / 2 ^ i % 2 := by
  induction i with
  | zero =>
    intro n
    cases n with
    | zero => simp
    | succ m =>
      rw [Nat.digits_def' one_lt_two (Nat.succ_pos m)]
      simp
  | succ j ih =>
    intro n
    cases n with
    | zero => simp
    | succ m =>
      rw [Nat.digits_def' one_lt_two (Nat.succ_pos m)]
      simp only [List.getD_cons_succ]
      rw [ih, Nat.div_div_eq_div_mul, ← Nat.pow_succ']

/-- Element `i` of the reversed Python binary expansion is bit `i` of the
integer. -/
theorem pyFormatB_rev_getD (n i : Nat) :
    (pyFormatB n).reverse.getD i 0 = n / 2 ^ i % 2 := by
  unfold pyFormatB
  by_cases h : n = 0
  · subst h
    cases i <;> simp
  · rw [if_neg h]
    show (binRep n).reverse.getD i 0 = _
    unfold binRep
    rw [binRepAux_digits n n le_rfl, List.reverse_reverse, digits_two_getD]

/-- C5.  `get_controller_address_map` parses the cleaned reply as a decimal
integer, expands it to binary, and returns the digit sequence reversed, so
element `i` is bit `i` of the bitmask; on the reply text "5" (binary 101) the
result is `[1, 0, 1]`. -/
theorem address_map_bit_order (n i : Nat) (w : List String) (bytes : List Nat)
    (rest : List (List Nat)) :
    (pyFormatB n).reverse.getD i 0 = n / 2 ^ i % 2 ∧
      (pyParseNat (parse_reply bytes) = some n →
        get_controller_address_map ⟨w, bytes :: rest⟩ =
          .ok ((pyFormatB n).reverse) ⟨w ++ ["1>SC?\r"], rest⟩) ∧
      get_controller_address_map ⟨[], [[49, 62, 53]]⟩ =
        .ok [1, 0, 1] ⟨["1>SC?\r"], []⟩ := by
  refine ⟨pyFormatB_rev_getD n i, fun hn => ?_, rfl⟩
  calc get_controller_address_map ⟨w, bytes :: rest⟩
      = (match pyParseNat (parse_reply bytes) with
          | none =>
            (throw (PyError.valueError "invalid literal for int") :
              PicoM (List Nat))
          | some n => pure (pyFormatB n).reverse)
          ⟨w ++ ["1>SC?\r"], rest⟩ := rfl
    _ = .ok ((pyFormatB n).reverse) ⟨w ++ ["1>SC?\r"], rest⟩ := by
        rw [hn]
        rfl

/-- C5, witness: the reply bytes for "1>5" parse to 5, whose reversed binary
expansion is the address map, with bit 0 recovered by the getD form. -/
theorem address_map_bit_order_witness :
    (pyFormatB 5).reverse.getD 0 0 = 5 / 2 ^ 0 % 2 ∧
      get_controller_address_map ⟨[], [[49, 62, 53]]⟩ =
        .ok ((pyFormatB 5).reverse) ⟨["1>SC?\r"], []⟩ := by
  exact ⟨(address_map_bit_order 5 0 [] [49, 62, 53] []).1,
    (address_map_bit_order 5 0 [] [49, 62, 53] []).2.1 rfl⟩

/-- Raw bytes of a "not done" motion-status reply, `"1>0\r\n"`. -/
def notDoneReply : List Nat := [49, 62, 48, 13, 10]

/-- Raw bytes of a "done" motion-status reply, `"1>1\r\n"`. -/
def doneReply : List Nat := [49, 62, 49, 13, 10]

/-- Running the busy-poll against a script of `n` "not done" replies followed
by one "done" reply: every scripted reply is consumed, one motion-done query
is written per reply, and the loop returns right after the "done" reply. -/
theorem poll_finished_script (n : Nat) : ∀ (fuel : Nat) (w : List String),
    n + 1 ≤ fuel →
    poll_finished 1 1 fuel ⟨w, List.replicate n notDoneReply ++ [doneReply]⟩ =
      .ok () ⟨w ++ List.replicate (n + 1) "1>1MD?\r", []⟩ := by
  induction n with
  | zero =>
    intro fuel w h
    cases fuel with
    | zero => omega
    | succ f => rfl
  | succ m ih =>
    intro fuel w h
    cases fuel with
    | zero => omega
    | succ f =>
      have step : poll_finished 1 1 (f + 1)
          ⟨w, List.replicate (m + 1) notDoneReply ++ [doneReply]⟩ =
          poll_finished 1 1 f
            ⟨w ++ ["1>1MD?\r"], List.replicate m notDoneReply ++ [doneReply]⟩ :=
        rfl
      rw [step, ih f (w ++ ["1>1MD?\r"]) (by omega)]
      simp [List.replicate_succ]

/-- C6.  With the channel scripted to answer `n` "not done" motion-status
replies and then one "done" reply, `move_to_target(1,1,500)` writes the move
command exactly once, then polls `finished_moving` once per scripted reply —
`n + 1` status queries — and returns (successfully) only once the "done"
reply has been consumed; `move_relative(1,1,500)` behaves identically with
its own move mnemonic.  The claim's scenario is the instance `n = 3`: 4
status queries. -/
theorem move_polls_until_done (n : Nat) (w : List String) :
    move_to_target 1 1 500 ⟨w, List.replicate n notDoneReply ++ [doneReply]⟩ =
        .ok () ⟨w ++ "1>1PA500\r" :: List.replicate (n + 1) "1>1MD?\r", []⟩ ∧
      move_relative 1 1 500 ⟨w, List.replicate n notDoneReply ++ [doneReply]⟩ =
        .ok () ⟨w ++ "1>1PR500\r" :: List.replicate (n + 1) "1>1MD?\r", []⟩ := by
  constructor
  · have step : move_to_target 1 1 500
        ⟨w, List.replicate n notDoneReply ++ [doneReply]⟩ =
        poll_finished 1 1
          ((List.replicate n notDoneReply ++ [doneReply]).length + 1)
          ⟨w ++ ["1>1PA500\r"], List.replicate n notDoneReply ++ [doneReply]⟩ :=
      rfl
    rw [step, poll_finished_script n _ _
      (by simp only [List.length_append, List.length_replicate,
        List.length_cons, List.length_nil]; omega)]
    simp [List.replicate_succ]
  · have step : move_relative 1 1 500
        ⟨w, List.replicate n notDoneReply ++ [doneReply]⟩ =
        poll_finished 1 1
          ((List.replicate n notDoneReply ++ [doneReply]).length + 1)
          ⟨w ++ ["1>1PR500\r"], List.replicate n notDoneReply ++ [doneReply]⟩ :=
      rfl
    rw [step, poll_finished_script n _ _
      (by simp only [List.length_append, List.length_replicate,
        List.length_cons, List.length_nil]; omega)]
    simp [List.replicate_succ]
